import Mathlib

/-!
Shallow embedding of `src/app.py` (a Flask HTTP query service over MySQL
tables with a Redis cache) and proofs about its routing directory, cache-aside
read path, cache-key construction, SQL construction and error handling.

Conventions of the embedding:
* Calendar dates are modelled as `Nat` ordinals; only their ordering matters.
* A MySQL table is a function from table name to its list of rows; a failed
  `pymysql.connect` is a `connOk = false` flag on the store model, and a
  failed `cursor.execute` on a codes table is `query t = none`.
* `get_mysql_connection` is a `@contextmanager` generator whose `except`
  branch returns without yielding; entering the `with` block after a
  connection failure therefore raises `RuntimeError` at the call site.
  The embedding reflects that: handlers that wrap the `with` in a generic
  `except Exception` turn it into a 500 response, while callers with no
  handler (the refresh thread) propagate it.
* Redis is a function from key to a get outcome: a stored value, a stored
  but corrupt value (`json.loads` raises), absence, or a raised connection
  error; plus a flag saying whether `setex` raises.
* A Flask response is `HttpResp`: a 200 with a JSON body, an explicit
  `(status, message)` error produced by the handler, or `unhandled` for an
  exception that escapes the handler (Flask then emits a generic 500).
-/

/-- Whether `p` matches at the head of `l` (helper for the embeddings of
Python's `in` on strings and `str.replace`). -/
def leadsWith : List Char → List Char → Bool
  | [], _ => true
  | _ :: _, [] => false
  | p :: ps, c :: cs => p == c && leadsWith ps cs

/-- Whether `pat` occurs as a contiguous subsequence of `l`. -/
def hasSub (pat : List Char) : List Char → Bool
  | [] => pat.isEmpty
  | c :: cs => leadsWith pat (c :: cs) || hasSub pat cs

/-- Substring containment, embedding Python's `pat in s` on strings. -/
def strContains (s pat : String) : Bool :=
  hasSub pat.data s.data

/-- Left-to-right non-overlapping replacement of `pat` by `rep`, the
semantics of Python's `str.replace`, written with a character-count fuel so
it is structural (each step consumes at least one character, so fuel
`l.length` always suffices). -/
def replaceSeqAux (pat rep : List Char) : Nat → List Char → List Char
  | 0, l => l
  | _ + 1, [] => []
  | fuel + 1, c :: cs =>
    if leadsWith pat (c :: cs) && !pat.isEmpty then
      rep ++ replaceSeqAux pat rep fuel ((c :: cs).drop pat.length)
    else c :: replaceSeqAux pat rep fuel cs

/-- Embedding of Python's `s.replace(pat, rep)`. -/
def pyReplace (s pat rep : String) : String :=
  ⟨replaceSeqAux pat.data rep.data s.data.length s.data⟩

/-- A row of one of the `*_codes` directory tables
(`SELECT code, name, market, sector FROM {table}` in `load_table_data`,
src/app.py lines 100-102). -/
structure CodeEntry where
  code : String
  name : String
  market : String
  sector : String
deriving DecidableEq, Repr

/-- The routing directory `table_data`: a Python (insertion-ordered) dict
from codes-table name to its fetched rows, modelled as an association list
in insertion order. -/
abbrev TableData := List (String × List CodeEntry)

/-- The fixed list `table_names = ['krx_codes', 'usx_codes', 'coin_codes']`
of `load_table_data` (src/app.py line 90). -/
def table_names : List String := ["krx_codes", "usx_codes", "coin_codes"]

/-- Store model for the codes tables: whether `pymysql.connect` succeeds,
and per-table query outcome (`none` models `cursor.execute` raising
`pymysql.MySQLError` on that table). -/
structure CodesDb where
  connOk : Bool
  query : String → Option (List CodeEntry)

/-- The `for table in table_names` loop of `load_table_data`
(src/app.py lines 99-102): queries tables in order, accumulating results in
`new_table_data`; the first raising query aborts the loop (the exception is
caught by the surrounding `except`), keeping only the tables fetched so far. -/
def collectTables (q : String → Option (List CodeEntry)) :
    List String → TableData
  | [] => []
  | t :: ts =>
    match q t with
    | some rows => (t, rows) :: collectTables q ts
    | none => []

/-- Outcome of one call to `load_table_data` (src/app.py lines 88-109):
either the `with get_mysql_connection()` line raises `RuntimeError`
(connection failure: the context-manager generator returned without
yielding) and `table_data` is left untouched, or the function runs to its
last line `table_data = new_table_data` and replaces the directory with
whatever `collectTables` accumulated — even when a mid-loop query failed. -/
inductive LoadResult where
  | raised
  | updated (d : TableData)
deriving DecidableEq

/-- `load_table_data` (src/app.py lines 88-109) as a function of the store
model. -/
def load_table_data (db : CodesDb) : LoadResult :=
  if db.connOk then .updated (collectTables db.query table_names)
  else .raised

/-- Effect of one refresh on the global `table_data`: on `RuntimeError` the
exception propagates before the assignment, so the old directory stays; on
a normal return the directory is wholesale replaced. -/
def refresh_table_data (old : TableData) (db : CodesDb) : TableData :=
  match load_table_data db with
  | .raised => old
  | .updated d => d

/-- `periodic_table_update` (src/app.py lines 140-144), driven by the list
of store states observed at successive ticks. The `while True` body is just
`load_table_data(); time.sleep(...)` with no exception handler, so a tick
whose `load_table_data` raises terminates the thread: the result records
the final directory and whether the task is still alive. -/
def periodic_table_update (cur : TableData) :
    List CodesDb → TableData × Bool
  | [] => (cur, true)
  | db :: rest =>
    match load_table_data db with
    | .raised => (cur, false)
    | .updated d => periodic_table_update d rest

/-- `find_prices_table_with_ticker` (src/app.py lines 115-120): scan the
directory in dict insertion order for the first codes table containing the
ticker and map `_codes` to `_prices`. -/
def find_prices_table_with_ticker (td : TableData) (ticker : String) :
    Option String :=
  match td with
  | [] => none
  | (table_name, rows) :: rest =>
    if rows.any (fun row => row.code == ticker) then
      some (pyReplace table_name "_codes" "_prices")
    else find_prices_table_with_ticker rest ticker

/-- The signals-table name chosen for a codes-table name by
`find_signals_table_with_ticker` (src/app.py lines 127-132):
`'krx' in table_name`, `'usx' in table_name` branches, else coin. -/
def signalsTableFor (table_name : String) : String :=
  if strContains table_name "krx" then "krx_signals"
  else if strContains table_name "usx" then "usx_signals"
  else "coin_signals"

/-- `find_signals_table_with_ticker` (src/app.py lines 123-133). -/
def find_signals_table_with_ticker (td : TableData) (ticker : String) :
    Option String :=
  match td with
  | [] => none
  | (table_name, rows) :: rest =>
    if rows.any (fun row => row.code == ticker) then
      some (signalsTableFor table_name)
    else find_signals_table_with_ticker rest ticker

/-- A row of a `*_prices` table; only the columns the embedded queries read
are carried (`code`, `date`, `close`), with dates as `Nat` ordinals. -/
structure PriceRow where
  code : String
  date : Nat
  close : Int
deriving DecidableEq, Repr

/-- Insert a row into a date-ascending list, keeping it sorted
(helper for the embedding of `ORDER BY date ASC`). -/
def insertByDate (r : PriceRow) : List PriceRow → List PriceRow
  | [] => [r]
  | s :: ss =>
    if r.date ≤ s.date then r :: s :: ss
    else s :: insertByDate r ss

/-- Date-ascending sort, the embedding of `ORDER BY date ASC`. -/
def sortByDate : List PriceRow → List PriceRow
  | [] => []
  | r :: rs => insertByDate r (sortByDate rs)

/-- Store model for the price tables: whether `pymysql.connect` succeeds
and the contents of each table by name. -/
structure PricesDb where
  connOk : Bool
  table : String → List PriceRow

/-- The `/prices` store query
`SELECT * FROM {table_name} WHERE code = %s ORDER BY date ASC`
(src/app.py lines 216-221). -/
def pricesQueryRows (db : PricesDb) (table_name ticker : String) :
    List PriceRow :=
  sortByDate ((db.table table_name).filter (fun r => r.code == ticker))

/-- What a Redis `get` can come back with: a previously stored record list,
a stored but corrupt payload (`json.loads` raises on it), absence (`None`
or expired), or a raised connection error. -/
inductive CacheGet where
  | val (rows : List PriceRow)
  | corrupt
  | absent
  | raise
deriving DecidableEq

/-- Redis model: per-key `get` outcome and whether `setex` raises. -/
structure RedisModel where
  get : String → CacheGet
  setRaises : Bool

/-- A JSON field value appearing in the embedded response bodies. -/
inductive JField where
  | str (s : String)
  | rows (rs : List PriceRow)
deriving DecidableEq, Repr

/-- A JSON response body: either a bare array of records (what `jsonify`
produces when handed a list) or a flat object given as an ordered list of
fields. -/
inductive JBody where
  | arr (rs : List PriceRow)
  | obj (fields : List (String × JField))
deriving DecidableEq, Repr

/-- A Flask response: status-200 JSON, an explicit handler-built error
response `(status, message)`, or an exception escaping the handler (Flask
then produces its generic 500 page). -/
inductive HttpResp where
  | ok (body : JBody)
  | err (status : Nat) (msg : String)
  | unhandled
deriving DecidableEq, Repr

/-- The cache-miss tail of `get_data` (src/app.py lines 216-248): the
`try` block opens the MySQL connection (a connection failure makes the
`with` statement raise `RuntimeError`, caught by `except Exception` and
turned into a 500 whose message is `str(e)`), runs the query, 404s on an
empty result, caches the serialized records with `setex` (a raising
`setex` is also caught by `except Exception` as a 500), and finally
returns `{"code": ticker, "data": records}`. -/
def get_data_miss (db : PricesDb) (redis : RedisModel)
    (ticker table_name : String) : HttpResp :=
  if !db.connOk then .err 500 "generator didn\x27t yield"
  else
    let records := pricesQueryRows db table_name ticker
    if records.isEmpty then
      .err 404 ("No data found for ticker " ++ ticker)
    else if redis.setRaises then .err 500 "redis setex raised"
    else .ok (.obj [("code", .str ticker), ("data", .rows records)])

/-- `get_data`, the `/prices` handler (src/app.py lines 194-248). The
request's logical parameters are the optional `ticker`, `start_date` and
`end_date` query arguments; the handler reads only `ticker`
(line 196) and never looks at date bounds. `redis_client.get` (line 206)
sits outside any `try`, so a raising cache read escapes the handler; a
stored payload is returned as-is (`jsonify(cached_data)`, a bare array); a
corrupt payload's `json.loads` error is caught and logged, falling through
to the store path. -/
def get_data (td : TableData) (db : PricesDb) (redis : RedisModel)
    (ticker : Option String) (start_date end_date : Option Nat) : HttpResp :=
  match ticker with
  | none => .err 400 "Missing required parameter: ticker"
  | some t =>
    match find_prices_table_with_ticker td t with
    | none => .err 404 ("Ticker " ++ t ++ " not found in any table")
    | some table_name =>
      match redis.get ("prices:" ++ t) with
      | .raise => .unhandled
      | .val rows => .ok (.arr rows)
      | .corrupt => get_data_miss db redis t table_name
      | .absent => get_data_miss db redis t table_name

/-- The `/latest_prices_ticker` store query
`SELECT code, date, close FROM {table_name} WHERE code = %s
ORDER BY date ASC LIMIT 1` (src/app.py lines 275-281): the date-ascending
sort followed by `LIMIT 1`. -/
def latestTickerQueryRows (db : PricesDb) (table_name ticker : String) :
    List PriceRow :=
  (sortByDate ((db.table table_name).filter (fun r => r.code == ticker))).take 1

/-- Cache-miss tail of `get_latest_price_data1` (src/app.py lines 275-308),
same structure as `get_data_miss` but over the `LIMIT 1` query. -/
def get_latest_price_data1_miss (db : PricesDb) (redis : RedisModel)
    (ticker table_name : String) : HttpResp :=
  if !db.connOk then .err 500 "generator didn\x27t yield"
  else
    let records := latestTickerQueryRows db table_name ticker
    if records.isEmpty then
      .err 404 ("No data found for ticker " ++ ticker)
    else if redis.setRaises then .err 500 "redis setex raised"
    else .ok (.obj [("code", .str ticker), ("data", .rows records)])

/-- `get_latest_price_data1`, the `/latest_prices_ticker` handler
(src/app.py lines 253-308). -/
def get_latest_price_data1 (td : TableData) (db : PricesDb)
    (redis : RedisModel) (ticker : Option String) : HttpResp :=
  match ticker with
  | none => .err 400 "Missing required parameter: ticker"
  | some t =>
    match find_prices_table_with_ticker td t with
    | none => .err 404 ("Ticker " ++ t ++ " not found in any table")
    | some table_name =>
      match redis.get ("latest_prices:" ++ t) with
      | .raise => .unhandled
      | .val rows => .ok (.arr rows)
      | .corrupt => get_latest_price_data1_miss db redis t table_name
      | .absent => get_latest_price_data1_miss db redis t table_name

/-- The cache key built by `get_latest_price_data2` (src/app.py line 325):
`f"latest_prices:{market_type}"` — the `date` request parameter is not part
of the key. -/
def latest_prices_cache_key (market_type : String) (d : Option Nat) :
    String :=
  "latest_prices:" ++ market_type

/-- Cache-miss tail of `get_latest_price_data2` (src/app.py lines 336-367):
`SELECT code, date, close FROM {table_name} WHERE date = %s`, 404 on an
empty result, `setex`, and `jsonify(records)` — a bare array, with no
`code`/`data` wrapper. A missing `date` argument reaches the store as SQL
NULL, which equals no row. -/
def get_latest_price_data2_miss (db : PricesDb) (redis : RedisModel)
    (table_name : String) (d : Option Nat) : HttpResp :=
  if !db.connOk then .err 500 "generator didn\x27t yield"
  else
    let records := (db.table table_name).filter (fun r => some r.date == d)
    if records.isEmpty then .err 404 "No data found"
    else if redis.setRaises then .err 500 "redis setex raised"
    else .ok (.arr records)

/-- `get_latest_price_data2`, the `/latest_prices` handler (src/app.py
lines 313-367). There is no missing-parameter check: line 318 evaluates
`'krx' in market_type` directly, so a request without `market_type` raises
`TypeError: argument of type \x27NoneType\x27 is not iterable` before any
handler-built response — the exception escapes the handler. -/
def get_latest_price_data2 (db : PricesDb) (redis : RedisModel)
    (market_type : Option String) (d : Option Nat) : HttpResp :=
  match market_type with
  | none => .unhandled
  | some mt =>
    let table_name :=
      if strContains mt "krx" then "krx_prices"
      else if strContains mt "usx" then "usx_prices"
      else "coin_prices"
    match redis.get (latest_prices_cache_key mt d) with
    | .raise => .unhandled
    | .val rows => .ok (.arr rows)
    | .corrupt => get_latest_price_data2_miss db redis table_name d
    | .absent => get_latest_price_data2_miss db redis table_name d

/-- The Python `repr` of the builtin `type`, which is what an f-string
interpolation of the bare name `type` renders. -/
def pyTypeRepr : String := "<class \x27type\x27>"

/-- The cache key built by `get_latest_update_date` (src/app.py line 779):
the source reads `f"latest_update_date:{type}"`, interpolating the Python
builtin `type` — not the `market_type` request parameter — so the rendered
key is the same constant for every request. -/
def latest_update_date_cache_key (market_type : String) : String :=
  "latest_update_date:" ++ pyTypeRepr

/-- The trades table name built by `get_trade_history` and `get_profits`
(src/app.py lines 582-587 and 646-651): the user-supplied `signal_type`
string is concatenated into the table name. -/
def tradesTableName (market_type signal_type : String) : String :=
  if strContains market_type "krx" then "krx_trades_" ++ signal_type
  else if strContains market_type "usx" then "usx_trades_" ++ signal_type
  else "coin_trades_" ++ signal_type

/-- The owned table name built by `get_owned` (src/app.py lines 709-714). -/
def ownedTableName (market_type signal_type : String) : String :=
  if strContains market_type "krx" then "krx_owned_" ++ signal_type
  else if strContains market_type "usx" then "usx_owned_" ++ signal_type
  else "coin_owned_" ++ signal_type

/-- SQL text and parameter tuple sent by `get_data` for `/prices`
(src/app.py lines 216-221, execution at line 229); whitespace normalized
to one line. -/
def get_data_sql (table_name ticker : String) : String × List String :=
  ("SELECT * FROM " ++ table_name ++ " WHERE code = %s ORDER BY date ASC",
   [ticker])

/-- SQL text and parameter tuple sent by `get_trade_history` for
`/trade_history` (src/app.py lines 600-604, executed with no parameters at
line 612): both the `signal_type`-derived table name and the raw
`start_date`/`end_date` strings are interpolated into the SQL text. -/
def get_trade_history_sql (market_type signal_type start_date end_date :
    String) : String × List String :=
  ("SELECT * FROM " ++ tradesTableName market_type signal_type ++
     " WHERE date <= " ++ end_date ++ " AND date >= " ++ start_date,
   [])

/-- SQL text and parameter tuple sent by `get_profits` for `/profits`
(src/app.py lines 664-668, execution at line 676): `start_date` travels as
a `%s` parameter, but the `signal_type`-derived table name is interpolated
into the SQL text. -/
def get_profits_sql (market_type signal_type start_date : String) :
    String × List String :=
  ("SELECT date, profit FROM " ++ tradesTableName market_type signal_type ++
     " WHERE date >= %s AND profit IS NOT NULL",
   [start_date])

/-- SQL text and parameter tuple sent by `get_owned` for `/owned`
(src/app.py lines 727-730, execution at line 738). -/
def get_owned_sql (market_type signal_type : String) : String × List String :=
  ("SELECT * FROM " ++ ownedTableName market_type signal_type, [])

/-- Membership in `insertByDate` is membership in the original list or the
inserted row. -/
theorem mem_insertByDate {x r : PriceRow} {l : List PriceRow} :
    x ∈ insertByDate r l ↔ x = r ∨ x ∈ l := by
  induction l with
  | nil => simp [insertByDate]
  | cons s ss ih =>
    by_cases h : r.date ≤ s.date
    · simp [insertByDate, h]
    · simp only [insertByDate, if_neg h, List.mem_cons, ih]
      tauto

/-- `sortByDate` preserves membership. -/
theorem mem_sortByDate {x : PriceRow} {l : List PriceRow} :
    x ∈ sortByDate l ↔ x ∈ l := by
  induction l with
  | nil => simp [sortByDate]
  | cons r rs ih => simp [sortByDate, mem_insertByDate, ih]

/-- Inserting into a date-sorted list keeps it date-sorted. -/
theorem pairwise_insertByDate {r : PriceRow} {l : List PriceRow}
    (h : l.Pairwise (fun a b => a.date ≤ b.date)) :
    (insertByDate r l).Pairwise (fun a b => a.date ≤ b.date) := by
  induction l with
  | nil => simp [insertByDate]
  | cons s ss ih =>
    rw [List.pairwise_cons] at h
    obtain ⟨hs, hss⟩ := h
    by_cases hle : r.date ≤ s.date
    · rw [insertByDate, if_pos hle, List.pairwise_cons]
      refine ⟨?_, List.pairwise_cons.mpr ⟨hs, hss⟩⟩
      intro y hy
      rcases List.mem_cons.mp hy with rfl | hy
      · exact hle
      · exact le_trans hle (hs y hy)
    · rw [insertByDate, if_neg hle, List.pairwise_cons]
      refine ⟨?_, ih hss⟩
      intro y hy
      rcases mem_insertByDate.mp hy with rfl | hy
      · exact le_of_lt (lt_of_not_le hle)
      · exact hs y hy

/-- The date-ascending sort always yields a date-sorted list. -/
theorem sortByDate_pairwise (l : List PriceRow) :
    (sortByDate l).Pairwise (fun a b => a.date ≤ b.date) := by
  induction l with
  | nil => simp [sortByDate]
  | cons y ys ih => exact pairwise_insertByDate ih

/-- Head of the date-ascending sort is date-minimal among the input rows. -/
theorem sortByDate_head_le {l rest : List PriceRow} {r : PriceRow}
    (h : sortByDate l = r :: rest) : ∀ x ∈ l, r.date ≤ x.date := by
  intro x hx
  have hmem : x ∈ sortByDate l := mem_sortByDate.mpr hx
  rw [h] at hmem
  rcases List.mem_cons.mp hmem with rfl | hmem
  · exact le_refl _
  · have hp := sortByDate_pairwise l
    rw [h, List.pairwise_cons] at hp
    exact hp.1 x hmem

/-- C6: a ticker code present in exactly one codes table of the directory
is routed to that table's prices table (`_codes` replaced by `_prices`) and
to its signals table (`krx`/`usx`/coin mapping); a code present in no table
routes to `none`. The directory is scanned in its fixed insertion order
(`table_data` is a Python 3.7+ dict keyed in `table_names` order), so the
result is deterministic. -/
theorem c6_table_routing (l1 l2 : TableData) (tn : String)
    (rows : List CodeEntry) (ticker : String)
    (hin : rows.any (fun row => row.code == ticker) = true)
    (hout : ∀ p ∈ l1 ++ l2, p.2.any (fun row => row.code == ticker) = false) :
    find_prices_table_with_ticker (l1 ++ (tn, rows) :: l2) ticker
        = some (pyReplace tn "_codes" "_prices")
    ∧ find_signals_table_with_ticker (l1 ++ (tn, rows) :: l2) ticker
        = some (signalsTableFor tn)
    ∧ ∀ td : TableData,
        (∀ p ∈ td, p.2.any (fun row => row.code == ticker) = false) →
        find_prices_table_with_ticker td ticker = none
        ∧ find_signals_table_with_ticker td ticker = none := by
  refine ⟨?_, ?_, ?_⟩
  · induction l1 with
    | nil => simp [find_prices_table_with_ticker, hin]
    | cons p ps ih =>
      have hp : p.2.any (fun row => row.code == ticker) = false :=
        hout p (by simp)
      have hrest : ∀ q ∈ ps ++ l2, q.2.any (fun row => row.code == ticker) = false := by
        intro q hq
        exact hout q (by simpa using Or.inr (by simpa using hq))
      calc find_prices_table_with_ticker ((p :: ps) ++ (tn, rows) :: l2) ticker
          = find_prices_table_with_ticker (ps ++ (tn, rows) :: l2) ticker := by
            rw [List.cons_append, find_prices_table_with_ticker, hp]
            simp
        _ = some (pyReplace tn "_codes" "_prices") := ih hrest
  · induction l1 with
    | nil => simp [find_signals_table_with_ticker, hin]
    | cons p ps ih =>
      have hp : p.2.any (fun row => row.code == ticker) = false :=
        hout p (by simp)
      have hrest : ∀ q ∈ ps ++ l2, q.2.any (fun row => row.code == ticker) = false := by
        intro q hq
        exact hout q (by simpa using Or.inr (by simpa using hq))
      calc find_signals_table_with_ticker ((p :: ps) ++ (tn, rows) :: l2) ticker
          = find_signals_table_with_ticker (ps ++ (tn, rows) :: l2) ticker := by
            rw [List.cons_append, find_signals_table_with_ticker, hp]
            simp
        _ = some (signalsTableFor tn) := ih hrest
  · intro td htd
    induction td with
    | nil => exact ⟨rfl, rfl⟩
    | cons p ps ih =>
      have hp : p.2.any (fun row => row.code == ticker) = false := htd p (by simp)
      have hrest := ih (fun q hq => htd q (by simp [hq]))
      constructor
      · rw [show p = (p.1, p.2) from rfl, find_prices_table_with_ticker, hp]
        exact hrest.1
      · rw [show p = (p.1, p.2) from rfl, find_signals_table_with_ticker, hp]
        exact hrest.2

/-- C6 witness: the routing theorem applied to a concrete three-namespace
directory where only `usx_codes` contains the ticker. -/
theorem c6_witness :
    find_prices_table_with_ticker
        [("krx_codes", [⟨"005930", "Samsung", "KOSPI", "Tech"⟩]),
         ("usx_codes", [⟨"AAPL", "Apple", "NASDAQ", "Tech"⟩]),
         ("coin_codes", [])] "AAPL" = some "usx_prices"
    ∧ find_signals_table_with_ticker
        [("krx_codes", [⟨"005930", "Samsung", "KOSPI", "Tech"⟩]),
         ("usx_codes", [⟨"AAPL", "Apple", "NASDAQ", "Tech"⟩]),
         ("coin_codes", [])] "AAPL" = some "usx_signals"
    ∧ find_prices_table_with_ticker
        [("krx_codes", [⟨"005930", "Samsung", "KOSPI", "Tech"⟩])] "ZZZ" = none := by
  have h := c6_table_routing
      [("krx_codes", [⟨"005930", "Samsung", "KOSPI", "Tech"⟩])]
      [("coin_codes", [])] "usx_codes"
      [⟨"AAPL", "Apple", "NASDAQ", "Tech"⟩] "AAPL"
      (by decide) (by decide)
  refine ⟨?_, ?_, ?_⟩
  · simpa using h.1
  · simpa using h.2.1
  · exact (h.2.2 [("krx_codes", [⟨"005930", "Samsung", "KOSPI", "Tech"⟩])]
      (by decide)).1

/-- C10: on a cache miss with a reachable store, `/latest_prices_ticker`
responds with the records of its `ORDER BY date ASC LIMIT 1` query, and
every record so returned is a row of the routed table for the requested
ticker whose date is minimal among that ticker's rows — the earliest record
on file, not the most recent one. -/
theorem c10_latest_prices_ticker_earliest (td : TableData) (db : PricesDb)
    (redis : RedisModel) (t table_name : String)
    (hroute : find_prices_table_with_ticker td t = some table_name)
    (hmiss : redis.get ("latest_prices:" ++ t) = .absent)
    (hconn : db.connOk = true)
    (hne : (latestTickerQueryRows db table_name t).isEmpty = false)
    (hset : redis.setRaises = false) :
    get_latest_price_data1 td db redis (some t)
      = .ok (.obj [("code", .str t),
          ("data", .rows (latestTickerQueryRows db table_name t))])
    ∧ ∀ r ∈ latestTickerQueryRows db table_name t,
        (r ∈ db.table table_name ∧ r.code = t)
        ∧ ∀ s ∈ db.table table_name, s.code = t → r.date ≤ s.date := by
  constructor
  · simp [get_latest_price_data1, hroute, hmiss,
      get_latest_price_data1_miss, hconn, hne, hset]
  · intro r hr
    rw [latestTickerQueryRows] at hr
    cases hs : sortByDate ((db.table table_name).filter
        (fun row => row.code == t)) with
    | nil =>
      rw [hs] at hr
      simp at hr
    | cons hd tl =>
      rw [hs] at hr
      simp only [List.take, List.mem_singleton] at hr
      subst hr
      have hhd : r ∈ (db.table table_name).filter (fun row => row.code == t) := by
        rw [← mem_sortByDate, hs]
        exact List.mem_cons_self _ _
      have hmem := List.mem_filter.mp hhd
      refine ⟨⟨hmem.1, by simpa using hmem.2⟩, ?_⟩
      intro s hsmem hcode
      exact sortByDate_head_le hs s
        (List.mem_filter.mpr ⟨hsmem, by simpa using hcode⟩)

/-- C10 witness: on a concrete table holding dates 9 and 4 for ticker `A`,
the endpoint query returns the date-4 row and the theorem's minimality
conclusion holds of it. -/
theorem c10_witness :
    get_latest_price_data1 [("krx_codes", [⟨"A", "N", "M", "S"⟩])]
        ⟨true, fun _ => [⟨"A", 9, 1⟩, ⟨"B", 3, 0⟩, ⟨"A", 4, 2⟩]⟩
        ⟨fun _ => .absent, false⟩ (some "A")
      = .ok (.obj [("code", .str "A"), ("data", .rows [⟨"A", 4, 2⟩])])
    ∧ ∀ r ∈ latestTickerQueryRows
        ⟨true, fun _ => [⟨"A", 9, 1⟩, ⟨"B", 3, 0⟩, ⟨"A", 4, 2⟩]⟩
        "krx_prices" "A",
        (r ∈ [(⟨"A", 9, 1⟩ : PriceRow), ⟨"B", 3, 0⟩, ⟨"A", 4, 2⟩] ∧ r.code = "A")
        ∧ ∀ s ∈ [(⟨"A", 9, 1⟩ : PriceRow), ⟨"B", 3, 0⟩, ⟨"A", 4, 2⟩],
            s.code = "A" → r.date ≤ s.date := by
  have h := c10_latest_prices_ticker_earliest
      [("krx_codes", [⟨"A", "N", "M", "S"⟩])]
      ⟨true, fun _ => [⟨"A", 9, 1⟩, ⟨"B", 3, 0⟩, ⟨"A", 4, 2⟩]⟩
      ⟨fun _ => .absent, false⟩ "A" "krx_prices"
      (by decide) rfl rfl (by decide) rfl
  refine ⟨?_, h.2⟩
  rw [h.1]
  decide

/-- C1 counterexample: a `/prices` request for ticker `A` bounded to
`[10, 20]`, against a table whose only rows for `A` have dates 5 and 15,
is answered with both rows — including the date-5 row, which lies outside
the requested closed interval, refuting the claim that only records with
`start_date <= date <= end_date` are returned. -/
theorem c1_counterexample :
    get_data [("krx_codes", [⟨"A", "N", "M", "S"⟩])]
        ⟨true, fun _ => [⟨"A", 15, 2⟩, ⟨"A", 5, 1⟩]⟩
        ⟨fun _ => .absent, false⟩
        (some "A") (some 10) (some 20)
      = .ok (.obj [("code", .str "A"),
          ("data", .rows [⟨"A", 5, 1⟩, ⟨"A", 15, 2⟩])])
    ∧ ¬ (10 ≤ 5) := by
  constructor
  · decide
  · decide

/-- C1 (amended): `get_data` never reads the date bounds, so the `/prices`
response is identical whatever bounds the caller supplies; on a cache miss
with a reachable store and a nonempty result it returns every record of the
requested ticker from the routed table, in ascending date order. -/
theorem c1_amended (td : TableData) (db : PricesDb) (redis : RedisModel)
    (ticker : Option String) (t table_name : String)
    (sd1 ed1 sd2 ed2 : Option Nat)
    (hroute : find_prices_table_with_ticker td t = some table_name)
    (hmiss : redis.get ("prices:" ++ t) = .absent)
    (hconn : db.connOk = true)
    (hne : (pricesQueryRows db table_name t).isEmpty = false)
    (hset : redis.setRaises = false) :
    get_data td db redis ticker sd1 ed1 = get_data td db redis ticker sd2 ed2
    ∧ get_data td db redis (some t) sd1 ed1
        = .ok (.obj [("code", .str t),
            ("data", .rows (pricesQueryRows db table_name t))])
    ∧ (∀ r ∈ pricesQueryRows db table_name t,
        r ∈ db.table table_name ∧ r.code = t)
    ∧ (pricesQueryRows db table_name t).Pairwise
        (fun a b => a.date ≤ b.date) := by
  refine ⟨rfl, ?_, ?_, ?_⟩
  · simp [get_data, hroute, hmiss, get_data_miss, hconn, hne, hset]
  · intro r hr
    rw [pricesQueryRows, mem_sortByDate] at hr
    have hmem := List.mem_filter.mp hr
    exact ⟨hmem.1, by simpa using hmem.2⟩
  · exact sortByDate_pairwise _

/-- C1 witness: the amended theorem applied to the concrete single-table
setup with distinct bound choices. -/
theorem c1_witness :
    get_data [("krx_codes", [⟨"A", "N", "M", "S"⟩])]
        ⟨true, fun _ => [⟨"A", 15, 2⟩, ⟨"A", 5, 1⟩]⟩
        ⟨fun _ => .absent, false⟩ (some "A") (some 10) (some 20)
      = get_data [("krx_codes", [⟨"A", "N", "M", "S"⟩])]
        ⟨true, fun _ => [⟨"A", 15, 2⟩, ⟨"A", 5, 1⟩]⟩
        ⟨fun _ => .absent, false⟩ (some "A") none none
    ∧ get_data [("krx_codes", [⟨"A", "N", "M", "S"⟩])]
        ⟨true, fun _ => [⟨"A", 15, 2⟩, ⟨"A", 5, 1⟩]⟩
        ⟨fun _ => .absent, false⟩ (some "A") (some 10) (some 20)
      = .ok (.obj [("code", .str "A"),
          ("data", .rows (pricesQueryRows
            ⟨true, fun _ => [⟨"A", 15, 2⟩, ⟨"A", 5, 1⟩]⟩ "krx_prices" "A"))]) := by
  have h := c1_amended [("krx_codes", [⟨"A", "N", "M", "S"⟩])]
      ⟨true, fun _ => [⟨"A", 15, 2⟩, ⟨"A", 5, 1⟩]⟩
      ⟨fun _ => .absent, false⟩ (some "A") "A" "krx_prices"
      (some 10) (some 20) none none
      (by decide) rfl rfl (by decide) rfl
  exact ⟨h.1, h.2.1⟩

/-- C2 counterexample: a refresh during which the connection succeeds but
the very first codes-table query fails replaces a previously loaded
non-empty directory with the empty partial snapshot — the prior directory
is not retained, refuting the claim. -/
theorem c2_counterexample :
    refresh_table_data [("krx_codes", [⟨"005930", "Samsung", "KOSPI", "Tech"⟩])]
        ⟨true, fun _ => none⟩ = []
    ∧ ([("krx_codes", [⟨"005930", "Samsung", "KOSPI", "Tech"⟩])] : TableData)
        ≠ [] := by
  constructor
  · rfl
  · decide

/-- C2 (amended): if the store connection fails, the refresh raises before
the `table_data = new_table_data` assignment and the previous directory is
retained unchanged; if the connection succeeds, the directory is replaced
wholesale (a single assignment — readers see old or new, never a mix) by
whatever prefix of the configured tables was queried before the first
failing query, so a failure on the first table leaves an empty directory. -/
theorem c2_amended (old : TableData) (db : CodesDb) :
    (db.connOk = false → refresh_table_data old db = old)
    ∧ (db.connOk = true →
        refresh_table_data old db = collectTables db.query table_names)
    ∧ (db.connOk = true → db.query "krx_codes" = none →
        refresh_table_data old db = []) := by
  refine ⟨?_, ?_, ?_⟩
  · intro h
    simp [refresh_table_data, load_table_data, h]
  · intro h
    simp [refresh_table_data, load_table_data, h]
  · intro h hq
    simp [refresh_table_data, load_table_data, h, table_names,
      collectTables, hq]

/-- C2 witness: the amended theorem at a concrete prior directory, once
with a failing connection (directory retained) and once with a failing
first query (directory emptied). -/
theorem c2_witness :
    refresh_table_data [("krx_codes", [⟨"005930", "Samsung", "KOSPI", "Tech"⟩])]
        ⟨false, fun _ => some []⟩
      = [("krx_codes", [⟨"005930", "Samsung", "KOSPI", "Tech"⟩])]
    ∧ refresh_table_data [("krx_codes", [⟨"005930", "Samsung", "KOSPI", "Tech"⟩])]
        ⟨true, fun _ => none⟩ = [] :=
  ⟨(c2_amended [("krx_codes", [⟨"005930", "Samsung", "KOSPI", "Tech"⟩])]
      ⟨false, fun _ => some []⟩).1 rfl,
   (c2_amended [("krx_codes", [⟨"005930", "Samsung", "KOSPI", "Tech"⟩])]
      ⟨true, fun _ => none⟩).2.2 rfl rfl⟩

/-- C7: the periodic refresh task does terminate on a transient store
failure. With a healthy store a tick replaces the directory and the loop
lives on; but one tick whose `pymysql.connect` fails makes
`get_mysql_connection`'s generator return without yielding, the `with`
statement in `load_table_data` raises `RuntimeError`, and
`periodic_table_update` — whose loop body has no exception handler — dies:
the subsequent healthy tick is never executed, refuting the claim that the
failure is logged and retried on the next tick. -/
theorem c7_refresh_thread_dies :
    periodic_table_update [("krx_codes", [⟨"005930", "Samsung", "KOSPI", "Tech"⟩])]
        [⟨true, fun _ => some [⟨"X", "N", "M", "S"⟩]⟩]
      = ([("krx_codes", [⟨"X", "N", "M", "S"⟩]),
          ("usx_codes", [⟨"X", "N", "M", "S"⟩]),
          ("coin_codes", [⟨"X", "N", "M", "S"⟩])], true)
    ∧ periodic_table_update [("krx_codes", [⟨"005930", "Samsung", "KOSPI", "Tech"⟩])]
        [⟨false, fun _ => some [⟨"X", "N", "M", "S"⟩]⟩,
         ⟨true, fun _ => some [⟨"X", "N", "M", "S"⟩]⟩]
      = ([("krx_codes", [⟨"005930", "Samsung", "KOSPI", "Tech"⟩])], false) := by
  constructor
  · rfl
  · rfl

/-- C3: cache-key construction is not injective over logical request
parameters. `/latest_update_date` interpolates the Python builtin `type`
instead of `market_type` into its f-string, so the distinct market types
`krx` and `usx` render the identical key; and the `/latest_prices` key
omits the `date` parameter, so requests for the same market but different
dates share a key. -/
theorem c3_cache_key_collisions :
    latest_update_date_cache_key "krx" = latest_update_date_cache_key "usx"
    ∧ "krx" ≠ "usx"
    ∧ latest_prices_cache_key "krx" (some 1) = latest_prices_cache_key "krx" (some 2)
    ∧ (some 1 : Option Nat) ≠ some 2 := by
  refine ⟨rfl, by decide, rfl, by decide⟩

/-- C9: `/prices` does answer a missing `ticker` with a descriptive 400,
but `/latest_prices` has no check for its required `market_type`: line 318
evaluates `'krx' in market_type` on `None`, raising a `TypeError` that
escapes the handler (Flask's generic 500), not a 400 — for every store and
cache state. -/
theorem c9_missing_parameter_handling :
    (∀ (td : TableData) (db : PricesDb) (redis : RedisModel)
        (sd ed : Option Nat),
      get_data td db redis none sd ed
        = .err 400 "Missing required parameter: ticker")
    ∧ (∀ (db : PricesDb) (redis : RedisModel) (d : Option Nat),
      get_latest_price_data2 db redis none d = .unhandled)
    ∧ ∀ msg : String, HttpResp.unhandled ≠ .err 400 msg := by
  refine ⟨fun _ _ _ _ _ => rfl, fun _ _ _ => rfl, fun msg h => ?_⟩
  cases h

/-- C8 counterexample: the SQL text `/profits` sends to the store differs
between two requests that differ only in the user-supplied `signal_type`
(which is concatenated into the table name), and likewise for `/owned` —
so `/trade_history`'s interpolated dates are not the sole exception to
parameterized queries. -/
theorem c8_counterexample :
    (get_profits_sql "krx" "v1" "2023-01-01").1
      ≠ (get_profits_sql "krx" "v2" "2023-01-01").1
    ∧ (get_owned_sql "krx" "v1").1 ≠ (get_owned_sql "krx" "v2").1 := by
  constructor
  · decide
  · decide

/-- C8 (amended): on `/prices` the SQL text depends only on the routed
table name, never on the ticker, which travels as the sole `%s` parameter;
on `/profits` the `start_date` travels as the sole parameter and the text
is independent of it — but the user-supplied `signal_type` is interpolated
into the table name of `/trade_history`, `/profits` and `/owned`, and
`/trade_history` additionally interpolates `start_date` and `end_date`
directly into the text, executing with an empty parameter tuple. -/
theorem c8_amended :
    (∀ table_name t1 t2 : String,
      (get_data_sql table_name t1).1 = (get_data_sql table_name t2).1)
    ∧ (∀ table_name t : String, (get_data_sql table_name t).2 = [t])
    ∧ (∀ m sig s1 s2 : String,
      (get_profits_sql m sig s1).1 = (get_profits_sql m sig s2).1)
    ∧ (∀ m sig s : String, (get_profits_sql m sig s).2 = [s])
    ∧ (∀ m sig sd ed : String, (get_trade_history_sql m sig sd ed).2 = [])
    ∧ (get_trade_history_sql "krx" "v1" "2023-01-01" "2023-01-31").1
        ≠ (get_trade_history_sql "krx" "v1" "2023-01-02" "2023-01-31").1
    ∧ (get_owned_sql "krx" "v1").2 = [] := by
  refine ⟨fun _ _ _ => rfl, fun _ _ => rfl, fun _ _ _ _ => rfl,
    fun _ _ _ => rfl, fun _ _ _ _ => rfl, by decide, rfl⟩

/-- C4 counterexample: for the same ticker `A` the cache-miss response body
is the object `{"code": "A", "data": [...]}` — whose field list is exactly
`code, data`, with no `start_date`/`end_date` — while the cache-hit
response (the cached value is precisely the record list the miss path
stored) is the bare array `[...]`: the hit shape differs from the miss
shape, refuting both halves of the claim. -/
theorem c4_counterexample :
    get_data [("krx_codes", [⟨"A", "N", "M", "S"⟩])]
        ⟨true, fun _ => [⟨"A", 5, 1⟩]⟩ ⟨fun _ => .absent, false⟩
        (some "A") none none
      = .ok (.obj [("code", .str "A"), ("data", .rows [⟨"A", 5, 1⟩])])
    ∧ get_data [("krx_codes", [⟨"A", "N", "M", "S"⟩])]
        ⟨true, fun _ => [⟨"A", 5, 1⟩]⟩ ⟨fun _ => .val [⟨"A", 5, 1⟩], false⟩
        (some "A") none none
      = .ok (.arr [⟨"A", 5, 1⟩])
    ∧ [("code", JField.str "A"), ("data", JField.rows [⟨"A", 5, 1⟩])].map
        Prod.fst = ["code", "data"]
    ∧ JBody.obj [("code", .str "A"), ("data", .rows [⟨"A", 5, 1⟩])]
        ≠ .arr [⟨"A", 5, 1⟩] := by
  refine ⟨by decide, by decide, by decide, by decide⟩

/-- C4 (amended): a successful `/prices` cache-miss response has the shape
`{code, data[]}` with exactly those two fields and no date bounds, while a
cache-hit response is the bare cached record array — the two shapes are
not equal. -/
theorem c4_amended (td : TableData) (db : PricesDb) (redis : RedisModel)
    (t table_name : String) (sd ed : Option Nat)
    (hroute : find_prices_table_with_ticker td t = some table_name)
    (hconn : db.connOk = true)
    (hne : (pricesQueryRows db table_name t).isEmpty = false)
    (hset : redis.setRaises = false) :
    (redis.get ("prices:" ++ t) = .absent →
      get_data td db redis (some t) sd ed
        = .ok (.obj [("code", .str t),
            ("data", .rows (pricesQueryRows db table_name t))]))
    ∧ (∀ rows, redis.get ("prices:" ++ t) = .val rows →
      get_data td db redis (some t) sd ed = .ok (.arr rows))
    ∧ ∀ rows fields, JBody.arr rows ≠ .obj fields := by
  refine ⟨?_, ?_, fun _ _ h => by cases h⟩
  · intro hmiss
    simp [get_data, hroute, hmiss, get_data_miss, hconn, hne, hset]
  · intro rows hhit
    simp [get_data, hroute, hhit]

/-- C4 witness: the amended theorem at the concrete one-row store, once on
a cold cache and once on a cache holding the stored record list. -/
theorem c4_witness :
    get_data [("krx_codes", [⟨"A", "N", "M", "S"⟩])]
        ⟨true, fun _ => [⟨"A", 5, 1⟩]⟩ ⟨fun _ => .absent, false⟩
        (some "A") none none
      = .ok (.obj [("code", .str "A"),
          ("data", .rows (pricesQueryRows
            ⟨true, fun _ => [⟨"A", 5, 1⟩]⟩ "krx_prices" "A"))])
    ∧ get_data [("krx_codes", [⟨"A", "N", "M", "S"⟩])]
        ⟨true, fun _ => [⟨"A", 5, 1⟩]⟩ ⟨fun _ => .val [⟨"A", 5, 1⟩], false⟩
        (some "A") none none
      = .ok (.arr [⟨"A", 5, 1⟩]) :=
  ⟨(c4_amended [("krx_codes", [⟨"A", "N", "M", "S"⟩])]
      ⟨true, fun _ => [⟨"A", 5, 1⟩]⟩ ⟨fun _ => .absent, false⟩
      "A" "krx_prices" none none (by decide) rfl (by decide) rfl).1 rfl,
   ((c4_amended [("krx_codes", [⟨"A", "N", "M", "S"⟩])]
      ⟨true, fun _ => [⟨"A", 5, 1⟩]⟩ ⟨fun _ => .val [⟨"A", 5, 1⟩], false⟩
      "A" "krx_prices" none none (by decide) rfl (by decide) rfl).2.1)
      [⟨"A", 5, 1⟩] rfl⟩

/-- C5 counterexample: a raising cache read (`redis_client.get` sits
outside every `try` in `get_data`) escapes the handler instead of
degrading to a miss, and a raising cache write (`setex` inside the generic
`except Exception`) turns a fetched result into a 500 error response
instead of the success response — in both cases the request fails. -/
theorem c5_counterexample :
    get_data [("krx_codes", [⟨"A", "N", "M", "S"⟩])]
        ⟨true, fun _ => [⟨"A", 5, 1⟩]⟩ ⟨fun _ => .raise, false⟩
        (some "A") none none = .unhandled
    ∧ get_data [("krx_codes", [⟨"A", "N", "M", "S"⟩])]
        ⟨true, fun _ => [⟨"A", 5, 1⟩]⟩ ⟨fun _ => .absent, true⟩
        (some "A") none none = .err 500 "redis setex raised"
    ∧ (∀ b : JBody, HttpResp.unhandled ≠ .ok b)
    ∧ ∀ b : JBody, HttpResp.err 500 "redis setex raised" ≠ .ok b := by
  refine ⟨by decide, by decide, ?_, ?_⟩
  · intro b h
    cases h
  · intro b h
    cases h

/-- C5 (amended): only a corrupt cached payload is treated as a miss (its
`json.loads` failure is caught and the handler proceeds to the store path,
exactly as for an absent key); a cache read that raises escapes the
handler, and on the store path a raising cache write produces a 500 error
response rather than the success response. -/
theorem c5_amended (td : TableData) (db : PricesDb) (redis : RedisModel)
    (t table_name : String) (sd ed : Option Nat)
    (hroute : find_prices_table_with_ticker td t = some table_name) :
    (redis.get ("prices:" ++ t) = .corrupt →
      get_data td db redis (some t) sd ed = get_data_miss db redis t table_name)
    ∧ (redis.get ("prices:" ++ t) = .absent →
      get_data td db redis (some t) sd ed = get_data_miss db redis t table_name)
    ∧ (redis.get ("prices:" ++ t) = .raise →
      get_data td db redis (some t) sd ed = .unhandled)
    ∧ (db.connOk = true → redis.setRaises = true →
      (pricesQueryRows db table_name t).isEmpty = false →
      get_data_miss db redis t table_name = .err 500 "redis setex raised") := by
  refine ⟨?_, ?_, ?_, ?_⟩
  · intro h
    simp [get_data, hroute, h]
  · intro h
    simp [get_data, hroute, h]
  · intro h
    simp [get_data, hroute, h]
  · intro hconn hset hne
    simp [get_data_miss, hconn, hset, hne]

/-- C5 witness: the amended theorem at the concrete one-row store with a
corrupt cache entry, an absent key, a raising read, and a raising write. -/
theorem c5_witness :
    get_data [("krx_codes", [⟨"A", "N", "M", "S"⟩])]
        ⟨true, fun _ => [⟨"A", 5, 1⟩]⟩ ⟨fun _ => .corrupt, false⟩
        (some "A") none none
      = get_data_miss ⟨true, fun _ => [⟨"A", 5, 1⟩]⟩
          ⟨fun _ => .corrupt, false⟩ "A" "krx_prices"
    ∧ get_data [("krx_codes", [⟨"A", "N", "M", "S"⟩])]
        ⟨true, fun _ => [⟨"A", 5, 1⟩]⟩ ⟨fun _ => .raise, false⟩
        (some "A") none none = .unhandled
    ∧ get_data_miss ⟨true, fun _ => [⟨"A", 5, 1⟩]⟩ ⟨fun _ => .absent, true⟩
        "A" "krx_prices" = .err 500 "redis setex raised" :=
  ⟨(c5_amended [("krx_codes", [⟨"A", "N", "M", "S"⟩])]
      ⟨true, fun _ => [⟨"A", 5, 1⟩]⟩ ⟨fun _ => .corrupt, false⟩
      "A" "krx_prices" none none (by decide)).1 rfl,
   (c5_amended [("krx_codes", [⟨"A", "N", "M", "S"⟩])]
      ⟨true, fun _ => [⟨"A", 5, 1⟩]⟩ ⟨fun _ => .raise, false⟩
      "A" "krx_prices" none none (by decide)).2.2.1 rfl,
   (c5_amended [("krx_codes", [⟨"A", "N", "M", "S"⟩])]
      ⟨true, fun _ => [⟨"A", 5, 1⟩]⟩ ⟨fun _ => .absent, true⟩
      "A" "krx_prices" none none (by decide)).2.2.2 rfl rfl (by decide)⟩
